import Mathlib

/-!
Verification of the field-extraction module `core/ocr.py`.

The module wraps an external OCR engine (tesseract).  We embed it shallowly:

* a Python string is a `List Char` (`PyStr`);
* the engine is an arbitrary function from an image and a configuration
  string to `Except ε PyStr` (for `image_to_string`), or to a token list
  `Except ε (List (PyStr × Int))` (for `image_to_data`); an `Except.error`
  models the engine raising an exception;
* each extractor is translated as an `_run` function returning the
  `Except` outcome of the `try`-block body together with the number of
  engine invocations performed, and a wrapper that applies the
  `except`-clause, mapping errors to the field's empty sentinel.
-/

namespace OCR

/-- Python strings are modelled as lists of characters. -/
abbrev PyStr := List Char

/-- The whitespace characters removed by Python `str.strip()`
(the ASCII ones: space, tab, newline, carriage return, vertical tab,
form feed). -/
def pySpace (c : Char) : Bool :=
  c = ' ' || c = '\t' || c = '\n' || c = '\r' || c = '\x0b' || c = '\x0c'

/-- Python `str.strip()`: drop leading and trailing whitespace. -/
def pyStrip (l : PyStr) : PyStr :=
  ((l.dropWhile pySpace).reverse.dropWhile pySpace).reverse

/-- Python `str.isdigit()`: non-empty and every character a digit
(restricted to the ASCII digits, which is all the digit-whitelisted
engine configurations can produce). -/
def pyIsDigit (l : PyStr) : Bool :=
  !l.isEmpty && l.all Char.isDigit

/-- Configuration string of `extract_text`. -/
def extract_text_config : String :=
  "--oem 3 --psm 6 -c tessedit_char_whitelist=ABCDEFGHIJKLMNOPQRSTUVWXYZabcdefghijklmnopqrstuvwxyz0123456789%().- "

/-- Configuration string of `extract_number`. -/
def extract_number_config : String :=
  "--oem 3 --psm 7 -c tessedit_char_whitelist=0123456789 "

/-- First `extract_turn_number` configuration: single word (psm 8). -/
def turn_config_word : String :=
  "--oem 3 --psm 8 -c tessedit_char_whitelist=0123456789"

/-- Second `extract_turn_number` configuration: single line (psm 7). -/
def turn_config_line : String :=
  "--oem 3 --psm 7 -c tessedit_char_whitelist=0123456789"

/-- Third `extract_turn_number` configuration: uniform block (psm 6). -/
def turn_config_block : String :=
  "--oem 3 --psm 6 -c tessedit_char_whitelist=0123456789"

/-- The three configurations tried by `extract_turn_number`, in order:
single word (psm 8), single line (psm 7), uniform block (psm 6). -/
def turn_configs : List String :=
  [turn_config_word, turn_config_line, turn_config_block]

/-- The three configurations tried by `extract_mood_text`, in order:
single word (psm 8), single line (psm 7), uniform block (psm 6). -/
def mood_configs : List String :=
  ["--oem 3 --psm 8 -c tessedit_char_whitelist=ABCDEFGHIJKLMNOPQRSTUVWXYZabcdefghijklmnopqrstuvwxyz",
   "--oem 3 --psm 7 -c tessedit_char_whitelist=ABCDEFGHIJKLMNOPQRSTUVWXYZabcdefghijklmnopqrstuvwxyz",
   "--oem 3 --psm 6 -c tessedit_char_whitelist=ABCDEFGHIJKLMNOPQRSTUVWXYZabcdefghijklmnopqrstuvwxyz"]

/-- The character whitelist shared by the four `extract_failure_text`
configurations and by `extract_failure_text_with_confidence`. -/
def failure_whitelist : String :=
  "ABCDEFGHIJKLMNOPQRSTUVWXYZabcdefghijklmnopqrstuvwxyz0123456789%(). "

/-- The four configurations tried by `extract_failure_text`, in order:
uniform block (psm 6), single line (psm 7), single word (psm 8),
raw line (psm 13). -/
def failure_configs : List String :=
  ["--oem 3 --psm 6 -c tessedit_char_whitelist=ABCDEFGHIJKLMNOPQRSTUVWXYZabcdefghijklmnopqrstuvwxyz0123456789%(). ",
   "--oem 3 --psm 7 -c tessedit_char_whitelist=ABCDEFGHIJKLMNOPQRSTUVWXYZabcdefghijklmnopqrstuvwxyz0123456789%(). ",
   "--oem 3 --psm 8 -c tessedit_char_whitelist=ABCDEFGHIJKLMNOPQRSTUVWXYZabcdefghijklmnopqrstuvwxyz0123456789%(). ",
   "--oem 3 --psm 13 -c tessedit_char_whitelist=ABCDEFGHIJKLMNOPQRSTUVWXYZabcdefghijklmnopqrstuvwxyz0123456789%(). "]

/-- Configuration string of `extract_failure_text_with_confidence`. -/
def failure_conf_config : String :=
  "--oem 3 --psm 6 -c tessedit_char_whitelist=ABCDEFGHIJKLMNOPQRSTUVWXYZabcdefghijklmnopqrstuvwxyz0123456789%(). "

variable {Image : Type} {ε : Type}

/-- The loop `for config in configs: text = engine(img, config).strip();
if accept(text): return text`.  Returns the loop's outcome (an
`Except.error` if an engine call raised, `some` accepted stripped text,
or `none` when the loop fell through) paired with the number of engine
invocations performed. -/
def tryConfigs (engine : Image → String → Except ε PyStr) (img : Image)
    (accept : PyStr → Bool) : List String → Except ε (Option PyStr) × Nat
  | [] => (Except.ok none, 0)
  | c :: cs =>
    match engine img c with
    | Except.error e => (Except.error e, 1)
    | Except.ok text =>
      let t := pyStrip text
      if accept t then (Except.ok (some t), 1)
      else
        let p := tryConfigs engine img accept cs
        (p.1, p.2 + 1)

/-- Body of `extract_text`'s `try`-block, with the invocation count. -/
def extract_text_run (engine : Image → String → Except ε PyStr) (img : Image) :
    Except ε PyStr × Nat :=
  match engine img extract_text_config with
  | Except.error e => (Except.error e, 1)
  | Except.ok text => (Except.ok (pyStrip text), 1)

/-- `extract_text`: one engine call, stripped; errors become `""`. -/
def extract_text (engine : Image → String → Except ε PyStr) (img : Image) : PyStr :=
  match (extract_text_run engine img).1 with
  | Except.ok t => t
  | Except.error _ => []

/-- Number of engine invocations made by one `extract_text` call. -/
def extract_text_calls (engine : Image → String → Except ε PyStr) (img : Image) : Nat :=
  (extract_text_run engine img).2

/-- Body of `extract_number`'s `try`-block, with the invocation count. -/
def extract_number_run (engine : Image → String → Except ε PyStr) (img : Image) :
    Except ε PyStr × Nat :=
  match engine img extract_number_config with
  | Except.error e => (Except.error e, 1)
  | Except.ok text => (Except.ok (pyStrip text), 1)

/-- `extract_number`: one engine call, stripped; errors become `""`. -/
def extract_number (engine : Image → String → Except ε PyStr) (img : Image) : PyStr :=
  match (extract_number_run engine img).1 with
  | Except.ok t => t
  | Except.error _ => []

/-- Number of engine invocations made by one `extract_number` call. -/
def extract_number_calls (engine : Image → String → Except ε PyStr) (img : Image) : Nat :=
  (extract_number_run engine img).2

/-- Body of `extract_turn_number`'s `try`-block: a first loop over
`turn_configs` accepting non-empty all-digit stripped text
(`if text and text.isdigit()`), then, if it fell through, a second loop
over the same configurations accepting any non-empty stripped text
(`if text`), then `return ""`. -/
def extract_turn_number_run (engine : Image → String → Except ε PyStr) (img : Image) :
    Except ε PyStr × Nat :=
  let p1 := tryConfigs engine img (fun t => !t.isEmpty && pyIsDigit t) turn_configs
  match p1.1 with
  | Except.error e => (Except.error e, p1.2)
  | Except.ok (some t) => (Except.ok t, p1.2)
  | Except.ok none =>
    let p2 := tryConfigs engine img (fun t => !t.isEmpty) turn_configs
    match p2.1 with
    | Except.error e => (Except.error e, p1.2 + p2.2)
    | Except.ok (some t) => (Except.ok t, p1.2 + p2.2)
    | Except.ok none => (Except.ok [], p1.2 + p2.2)

/-- `extract_turn_number`: digit-purity pass, then non-empty fallback
pass re-running the same configurations; errors become `""`. -/
def extract_turn_number (engine : Image → String → Except ε PyStr) (img : Image) : PyStr :=
  match (extract_turn_number_run engine img).1 with
  | Except.ok t => t
  | Except.error _ => []

/-- Number of engine invocations made by one `extract_turn_number` call. -/
def extract_turn_number_calls (engine : Image → String → Except ε PyStr) (img : Image) : Nat :=
  (extract_turn_number_run engine img).2

/-- Body of `extract_mood_text`'s `try`-block: one loop over
`mood_configs` accepting any non-empty stripped text, then `return ""`. -/
def extract_mood_text_run (engine : Image → String → Except ε PyStr) (img : Image) :
    Except ε PyStr × Nat :=
  let p := tryConfigs engine img (fun t => !t.isEmpty) mood_configs
  match p.1 with
  | Except.error e => (Except.error e, p.2)
  | Except.ok (some t) => (Except.ok t, p.2)
  | Except.ok none => (Except.ok [], p.2)

/-- `extract_mood_text`: first non-empty result of the three mood
configurations; errors become `""`. -/
def extract_mood_text (engine : Image → String → Except ε PyStr) (img : Image) : PyStr :=
  match (extract_mood_text_run engine img).1 with
  | Except.ok t => t
  | Except.error _ => []

/-- Number of engine invocations made by one `extract_mood_text` call. -/
def extract_mood_text_calls (engine : Image → String → Except ε PyStr) (img : Image) : Nat :=
  (extract_mood_text_run engine img).2

/-- Body of `extract_failure_text`'s `try`-block: one loop over
`failure_configs` accepting any non-empty stripped text, then
`return ""`. -/
def extract_failure_text_run (engine : Image → String → Except ε PyStr) (img : Image) :
    Except ε PyStr × Nat :=
  let p := tryConfigs engine img (fun t => !t.isEmpty) failure_configs
  match p.1 with
  | Except.error e => (Except.error e, p.2)
  | Except.ok (some t) => (Except.ok t, p.2)
  | Except.ok none => (Except.ok [], p.2)

/-- `extract_failure_text`: first non-empty result of the four failure
configurations; errors become `""`. -/
def extract_failure_text (engine : Image → String → Except ε PyStr) (img : Image) : PyStr :=
  match (extract_failure_text_run engine img).1 with
  | Except.ok t => t
  | Except.error _ => []

/-- Number of engine invocations made by one `extract_failure_text` call. -/
def extract_failure_text_calls (engine : Image → String → Except ε PyStr) (img : Image) : Nat :=
  (extract_failure_text_run engine img).2

/-- Body of `extract_failure_text_with_confidence`'s `try`-block.  The
engine's `image_to_data` output is the token list; tokens whose stripped
text is non-empty are kept, their raw texts joined with single spaces and
stripped, and the confidence is the mean of their confidences divided
by 100.  With no kept token the result is `("", 0.0)`. -/
def extract_failure_text_with_confidence_run
    (engineData : Image → String → Except ε (List (PyStr × Int))) (img : Image) :
    Except ε (PyStr × ℚ) × Nat :=
  match engineData img failure_conf_config with
  | Except.error e => (Except.error e, 1)
  | Except.ok tokens =>
    let kept := tokens.filter fun tc => !(pyStrip tc.1).isEmpty
    let text_parts := kept.map Prod.fst
    let confidences := kept.map Prod.snd
    if !text_parts.isEmpty then
      let full_text := pyStrip (List.intercalate [' '] text_parts)
      let avg_confidence : ℚ := ((confidences.sum : ℚ) / (confidences.length : ℚ)) / 100
      (Except.ok (full_text, avg_confidence), 1)
    else
      (Except.ok ([], 0), 1)

/-- `extract_failure_text_with_confidence`: one token-level engine call;
errors become `("", 0.0)`. -/
def extract_failure_text_with_confidence
    (engineData : Image → String → Except ε (List (PyStr × Int))) (img : Image) :
    PyStr × ℚ :=
  match (extract_failure_text_with_confidence_run engineData img).1 with
  | Except.ok r => r
  | Except.error _ => ([], 0)

/-- Number of engine invocations made by one
`extract_failure_text_with_confidence` call. -/
def extract_failure_text_with_confidence_calls
    (engineData : Image → String → Except ε (List (PyStr × Int))) (img : Image) : Nat :=
  (extract_failure_text_with_confidence_run engineData img).2

/-- An engine that never raises, for claims about result selection. -/
def okEngine (e0 : Image → String → PyStr) : Image → String → Except Unit PyStr :=
  fun img c => Except.ok (e0 img c)

/-- Modelled from the claim: the single-pass variant of
`extract_turn_number` that runs the three configurations once, in order,
returning the first stripped output that is non-empty and all-digit
immediately, and otherwise remembering each output and, at the end,
returning the first recorded non-empty output, defaulting to `""`. -/
def singlePassGo (engine : Image → String → Except ε PyStr) (img : Image) :
    List String → List PyStr → Except ε PyStr
  | [], acc => Except.ok (((acc.reverse.find? fun t => !t.isEmpty).getD []))
  | c :: cs, acc =>
    match engine img c with
    | Except.error e => Except.error e
    | Except.ok text =>
      let t := pyStrip text
      if !t.isEmpty && pyIsDigit t then Except.ok t
      else singlePassGo engine img cs (t :: acc)

/-- Modelled from the claim: single-pass `extract_turn_number`, recording
first-pass outputs instead of re-invoking the engine. -/
def extract_turn_number_single_pass (engine : Image → String → Except ε PyStr)
    (img : Image) : PyStr :=
  match singlePassGo engine img turn_configs [] with
  | Except.ok t => t
  | Except.error _ => []

/-- A string with no leading and no trailing whitespace character. -/
def isStripped (l : PyStr) : Prop :=
  (∀ c ∈ l.head?, pySpace c = false) ∧ (∀ c ∈ l.getLast?, pySpace c = false)

theorem head?_dropWhile_false (p : Char → Bool) (l : List Char) (c : Char)
    (h : (l.dropWhile p).head? = some c) : p c = false := by
  have hd := List.head?_dropWhile_not p l
  rw [h] at hd
  exact hd

theorem exists_append_dropWhile (p : Char → Bool) (l : List Char) :
    ∃ w, w ++ l.dropWhile p = l := by
  induction l with
  | nil => exact ⟨[], rfl⟩
  | cons a t ih =>
    by_cases h : p a
    · obtain ⟨w, hw⟩ := ih
      exact ⟨a :: w, by simp [List.dropWhile_cons, h, hw]⟩
    · exact ⟨[], by simp [List.dropWhile_cons, h]⟩

theorem isStripped_nil : isStripped [] := by
  constructor <;> intro c hc <;> simp at hc

theorem pyStrip_isStripped (l : PyStr) : isStripped (pyStrip l) := by
  constructor
  · intro c hc
    unfold pyStrip at hc
    rw [List.head?_reverse] at hc
    have hc' : ((l.dropWhile pySpace).reverse.dropWhile pySpace).getLast? = some c := hc
    obtain ⟨w, hw⟩ := exists_append_dropWhile pySpace (l.dropWhile pySpace).reverse
    have hgl : (w ++ (l.dropWhile pySpace).reverse.dropWhile pySpace).getLast? = some c := by
      rw [List.getLast?_append, hc']
      rfl
    rw [hw, List.getLast?_reverse] at hgl
    exact head?_dropWhile_false pySpace l c hgl
  · intro c hc
    unfold pyStrip at hc
    rw [List.getLast?_reverse] at hc
    exact head?_dropWhile_false pySpace (l.dropWhile pySpace).reverse c hc

theorem tryConfigs_fst_okEngine {Image : Type} (e0 : Image → String → PyStr)
    (img : Image) (accept : PyStr → Bool) (cs : List String) :
    (tryConfigs (okEngine e0) img accept cs).1 =
      Except.ok ((cs.map fun c => pyStrip (e0 img c)).find? accept) := by
  induction cs with
  | nil => rfl
  | cons c rest ih =>
    simp only [tryConfigs, okEngine, List.map_cons]
    by_cases h : accept (pyStrip (e0 img c))
    · rw [List.find?_cons_of_pos _ h]
      simp [h]
    · rw [List.find?_cons_of_neg _ h]
      simp only [h, if_neg, Bool.false_eq_true, not_false_iff, ite_false]
      exact ih

theorem tryConfigs_calls_le {Image ε : Type} (engine : Image → String → Except ε PyStr)
    (img : Image) (accept : PyStr → Bool) (cs : List String) :
    (tryConfigs engine img accept cs).2 ≤ cs.length := by
  induction cs with
  | nil => simp [tryConfigs]
  | cons c rest ih =>
    simp only [tryConfigs, List.length_cons]
    rcases engine img c with e | text
    · simp
    · by_cases h : accept (pyStrip text)
      · simp [h]
      · simp only [h, ite_false, Bool.false_eq_true]
        omega

theorem tryConfigs_ok_some_stripped {Image ε : Type}
    (engine : Image → String → Except ε PyStr) (img : Image)
    (accept : PyStr → Bool) (cs : List String) (t : PyStr)
    (h : (tryConfigs engine img accept cs).1 = Except.ok (some t)) :
    ∃ u, t = pyStrip u := by
  induction cs with
  | nil => simp [tryConfigs] at h
  | cons c rest ih =>
    simp only [tryConfigs] at h
    split at h
    · simp at h
    · split at h
      · rename_i text heq hacc
        refine ⟨text, ?_⟩
        simp at h
        exact h.symm
      · exact ih h

theorem tryConfigs_ok_some_accept {Image ε : Type}
    (engine : Image → String → Except ε PyStr) (img : Image)
    (accept : PyStr → Bool) (cs : List String) (t : PyStr)
    (h : (tryConfigs engine img accept cs).1 = Except.ok (some t)) :
    accept t = true := by
  induction cs with
  | nil => simp [tryConfigs] at h
  | cons c rest ih =>
    simp only [tryConfigs] at h
    split at h
    · simp at h
    · split at h
      · rename_i text heq hacc
        simp at h
        rw [← h]
        exact hacc
      · exact ih h

theorem extract_text_trimmed {Image ε : Type}
    (engine : Image → String → Except ε PyStr) (img : Image) :
    isStripped (extract_text engine img) := by
  unfold extract_text extract_text_run
  rcases he : engine img extract_text_config with e | text <;> simp only [he]
  · exact isStripped_nil
  · exact pyStrip_isStripped text

theorem extract_number_trimmed {Image ε : Type}
    (engine : Image → String → Except ε PyStr) (img : Image) :
    isStripped (extract_number engine img) := by
  unfold extract_number extract_number_run
  rcases he : engine img extract_number_config with e | text <;> simp only [he]
  · exact isStripped_nil
  · exact pyStrip_isStripped text

theorem extract_turn_number_trimmed {Image ε : Type}
    (engine : Image → String → Except ε PyStr) (img : Image) :
    isStripped (extract_turn_number engine img) := by
  unfold extract_turn_number extract_turn_number_run
  rcases h1 : (tryConfigs engine img (fun t => !t.isEmpty && pyIsDigit t) turn_configs).1
    with e | o
  · simp only [h1]
    exact isStripped_nil
  · rcases o with _ | t
    · rcases h2 : (tryConfigs engine img (fun t => !t.isEmpty) turn_configs).1 with e | o2
      · simp only [h1, h2]
        exact isStripped_nil
      · rcases o2 with _ | t2
        · simp only [h1, h2]
          exact isStripped_nil
        · simp only [h1, h2]
          obtain ⟨u, hu⟩ := tryConfigs_ok_some_stripped engine img _ turn_configs t2 h2
          rw [hu]
          exact pyStrip_isStripped u
    · simp only [h1]
      obtain ⟨u, hu⟩ := tryConfigs_ok_some_stripped engine img _ turn_configs t h1
      rw [hu]
      exact pyStrip_isStripped u

theorem extract_mood_text_trimmed {Image ε : Type}
    (engine : Image → String → Except ε PyStr) (img : Image) :
    isStripped (extract_mood_text engine img) := by
  unfold extract_mood_text extract_mood_text_run
  rcases h1 : (tryConfigs engine img (fun t => !t.isEmpty) mood_configs).1 with e | o
  · simp only [h1]
    exact isStripped_nil
  · rcases o with _ | t
    · simp only [h1]
      exact isStripped_nil
    · simp only [h1]
      obtain ⟨u, hu⟩ := tryConfigs_ok_some_stripped engine img _ mood_configs t h1
      rw [hu]
      exact pyStrip_isStripped u

theorem extract_failure_text_trimmed {Image ε : Type}
    (engine : Image → String → Except ε PyStr) (img : Image) :
    isStripped (extract_failure_text engine img) := by
  unfold extract_failure_text extract_failure_text_run
  rcases h1 : (tryConfigs engine img (fun t => !t.isEmpty) failure_configs).1 with e | o
  · simp only [h1]
    exact isStripped_nil
  · rcases o with _ | t
    · simp only [h1]
      exact isStripped_nil
    · simp only [h1]
      obtain ⟨u, hu⟩ := tryConfigs_ok_some_stripped engine img _ failure_configs t h1
      rw [hu]
      exact pyStrip_isStripped u

theorem failure_conf_eq {Image ε : Type}
    (engineData : Image → String → Except ε (List (PyStr × Int))) (img : Image)
    (tokens : List (PyStr × Int))
    (h : engineData img failure_conf_config = Except.ok tokens) :
    extract_failure_text_with_confidence engineData img =
      (if (tokens.filter fun tc => !(pyStrip tc.1).isEmpty) = [] then ([], 0)
       else
         (pyStrip (List.intercalate [' ']
            ((tokens.filter fun tc => !(pyStrip tc.1).isEmpty).map Prod.fst)),
          (((tokens.filter fun tc => !(pyStrip tc.1).isEmpty).map Prod.snd).sum : ℚ) /
            ((tokens.filter fun tc => !(pyStrip tc.1).isEmpty).length : ℚ) / 100)) := by
  unfold extract_failure_text_with_confidence extract_failure_text_with_confidence_run
  rw [h]
  by_cases hk : (tokens.filter fun tc => !(pyStrip tc.1).isEmpty) = []
  · simp [hk]
  · have hne : ((tokens.filter fun tc => !(pyStrip tc.1).isEmpty).map Prod.fst).isEmpty = false := by
      rcases hx : tokens.filter fun tc => !(pyStrip tc.1).isEmpty with _ | ⟨a, rest⟩
      · exact absurd hx hk
      · rw [hx]
        rfl
    simp [hk, hne, List.length_map]

theorem extract_failure_conf_trimmed {Image ε : Type}
    (engineData : Image → String → Except ε (List (PyStr × Int))) (img : Image) :
    isStripped (extract_failure_text_with_confidence engineData img).1 := by
  rcases he : engineData img failure_conf_config with e | tokens
  · unfold extract_failure_text_with_confidence extract_failure_text_with_confidence_run
    rw [he]
    exact isStripped_nil
  · rw [failure_conf_eq engineData img tokens he]
    split
    · exact isStripped_nil
    · exact pyStrip_isStripped _

/-- C1: `extract_turn_number` applies its three digit-whitelist profiles
in the order single word, single line, uniform block; it returns the
first stripped profile output that is non-empty and all-digit, otherwise
the first non-empty stripped output of a second pass over the same
profiles in the same order, otherwise the empty string.  In particular a
first-profile output containing a letter is passed over in favour of a
later all-digit output. -/
theorem extract_turn_number_profile_policy {Image : Type}
    (e0 : Image → String → PyStr) (img : Image) :
    extract_turn_number (okEngine e0) img =
      (match (turn_configs.map fun c => pyStrip (e0 img c)).find?
          (fun t => !t.isEmpty && pyIsDigit t) with
       | some t => t
       | none =>
         ((turn_configs.map fun c => pyStrip (e0 img c)).find?
             (fun t => !t.isEmpty)).getD []) := by
  simp only [extract_turn_number, extract_turn_number_run, tryConfigs_fst_okEngine]
  rcases hf : (turn_configs.map fun c => pyStrip (e0 img c)).find?
      (fun t => !t.isEmpty && pyIsDigit t) with _ | t
  · rcases hg : (turn_configs.map fun c => pyStrip (e0 img c)).find?
        (fun t => !t.isEmpty) with _ | u <;> simp [hf, hg]
  · simp [hf]

/-- C4: every extractor returns a string (for the confidence variant, a
first component) with no leading and no trailing whitespace character,
for every image and every engine behaviour. -/
theorem extractor_outputs_trimmed {Image ε : Type}
    (engine : Image → String → Except ε PyStr)
    (engineData : Image → String → Except ε (List (PyStr × Int))) (img : Image) :
    isStripped (extract_text engine img) ∧
    isStripped (extract_number engine img) ∧
    isStripped (extract_turn_number engine img) ∧
    isStripped (extract_mood_text engine img) ∧
    isStripped (extract_failure_text engine img) ∧
    isStripped (extract_failure_text_with_confidence engineData img).1 :=
  ⟨extract_text_trimmed engine img, extract_number_trimmed engine img,
   extract_turn_number_trimmed engine img, extract_mood_text_trimmed engine img,
   extract_failure_text_trimmed engine img, extract_failure_conf_trimmed engineData img⟩

/-- C2: `extract_failure_text_with_confidence` keeps exactly the tokens
whose stripped text is non-empty; the text is the kept raw texts joined
with single spaces and then stripped, and the confidence is the
arithmetic mean of the kept confidences divided by 100; with no kept
token the result is exactly `("", 0.0)`. -/
theorem extract_failure_conf_spec {Image ε : Type}
    (engineData : Image → String → Except ε (List (PyStr × Int))) (img : Image)
    (tokens : List (PyStr × Int))
    (h : engineData img failure_conf_config = Except.ok tokens) :
    extract_failure_text_with_confidence engineData img =
      (if (tokens.filter fun tc => !(pyStrip tc.1).isEmpty) = [] then ([], 0)
       else
         (pyStrip (List.intercalate [' ']
            ((tokens.filter fun tc => !(pyStrip tc.1).isEmpty).map Prod.fst)),
          (((tokens.filter fun tc => !(pyStrip tc.1).isEmpty).map Prod.snd).sum : ℚ) /
            ((tokens.filter fun tc => !(pyStrip tc.1).isEmpty).length : ℚ) / 100)) :=
  failure_conf_eq engineData img tokens h

theorem extract_failure_conf_spec_witness :
    extract_failure_text_with_confidence
      (fun (_ : Nat) (_ : String) =>
        (Except.ok [(('1' : Char) :: '2' :: [], (90 : Int)), ([], 0), (('%' : Char) :: [], 80)] :
          Except Unit (List (PyStr × Int)))) 0 =
      ('1' :: '2' :: ' ' :: '%' :: [], 17/20) := by
  have h := extract_failure_conf_spec
    (fun (_ : Nat) (_ : String) =>
      (Except.ok [(('1' : Char) :: '2' :: [], (90 : Int)), ([], 0), (('%' : Char) :: [], 80)] :
        Except Unit (List (PyStr × Int)))) 0
    [(('1' : Char) :: '2' :: [], (90 : Int)), ([], 0), (('%' : Char) :: [], 80)] rfl
  rw [h, show (List.filter (fun tc => !List.isEmpty (pyStrip tc.1))
      [(('1' : Char) :: '2' :: [], (90 : Int)), ([], 0), (('%' : Char) :: [], 80)]) =
      [(('1' : Char) :: '2' :: [], (90 : Int)), (('%' : Char) :: [], 80)] from by decide]
  rw [if_neg (by decide)]
  simp only [Prod.mk.injEq]
  constructor
  · decide
  · norm_num

/-- C3: every extractor catches engine errors: whenever the body of its
try-block ends in an engine error, the call returns the field's empty
sentinel (the empty string, or `("", 0.0)` for the confidence variant)
instead of propagating the error. -/
theorem extractors_catch_engine_error {Image ε : Type}
    (engine : Image → String → Except ε PyStr)
    (engineData : Image → String → Except ε (List (PyStr × Int))) (img : Image) :
    (∀ e, (extract_text_run engine img).1 = Except.error e →
      extract_text engine img = []) ∧
    (∀ e, (extract_number_run engine img).1 = Except.error e →
      extract_number engine img = []) ∧
    (∀ e, (extract_turn_number_run engine img).1 = Except.error e →
      extract_turn_number engine img = []) ∧
    (∀ e, (extract_mood_text_run engine img).1 = Except.error e →
      extract_mood_text engine img = []) ∧
    (∀ e, (extract_failure_text_run engine img).1 = Except.error e →
      extract_failure_text engine img = []) ∧
    (∀ e, (extract_failure_text_with_confidence_run engineData img).1 = Except.error e →
      extract_failure_text_with_confidence engineData img = ([], 0)) := by
  refine ⟨?_, ?_, ?_, ?_, ?_, ?_⟩ <;> intro e h
  · unfold extract_text
    rw [h]
  · unfold extract_number
    rw [h]
  · unfold extract_turn_number
    rw [h]
  · unfold extract_mood_text
    rw [h]
  · unfold extract_failure_text
    rw [h]
  · unfold extract_failure_text_with_confidence
    rw [h]

theorem extractors_catch_engine_error_witness :
    extract_text (fun (_ : Nat) (_ : String) => (Except.error () : Except Unit PyStr)) 0 = [] ∧
    extract_number (fun (_ : Nat) (_ : String) => (Except.error () : Except Unit PyStr)) 0 = [] ∧
    extract_turn_number (fun (_ : Nat) (_ : String) => (Except.error () : Except Unit PyStr)) 0 = [] ∧
    extract_mood_text (fun (_ : Nat) (_ : String) => (Except.error () : Except Unit PyStr)) 0 = [] ∧
    extract_failure_text (fun (_ : Nat) (_ : String) => (Except.error () : Except Unit PyStr)) 0 = [] ∧
    extract_failure_text_with_confidence
      (fun (_ : Nat) (_ : String) => (Except.error () : Except Unit (List (PyStr × Int)))) 0 =
      ([], 0) := by
  have h := extractors_catch_engine_error
    (fun (_ : Nat) (_ : String) => (Except.error () : Except Unit PyStr))
    (fun (_ : Nat) (_ : String) => (Except.error () : Except Unit (List (PyStr × Int)))) 0
  exact ⟨h.1 () rfl, h.2.1 () rfl, h.2.2.1 () rfl, h.2.2.2.1 () rfl,
    h.2.2.2.2.1 () rfl, h.2.2.2.2.2 () rfl⟩

/-- C6 counterexample: with an engine behaviour that always returns the
empty string, one `extract_turn_number` call performs six engine
invocations, exceeding four. -/
theorem turn_number_six_calls_cex :
    extract_turn_number_calls
      (fun (_ : Nat) (_ : String) => (Except.ok [] : Except Unit PyStr)) 0 = 6 ∧
    ¬extract_turn_number_calls
      (fun (_ : Nat) (_ : String) => (Except.ok [] : Except Unit PyStr)) 0 ≤ 4 := by
  decide

/-- C6 (amended): per-call engine-invocation bounds: exactly one
invocation for `extract_text`, `extract_number` and the confidence
variant; at most three for `extract_mood_text`; at most four for
`extract_failure_text`; at most six for `extract_turn_number` (up to
three per pass). -/
theorem engine_call_bounds {Image ε : Type}
    (engine : Image → String → Except ε PyStr)
    (engineData : Image → String → Except ε (List (PyStr × Int))) (img : Image) :
    extract_text_calls engine img = 1 ∧
    extract_number_calls engine img = 1 ∧
    extract_turn_number_calls engine img ≤ 6 ∧
    extract_mood_text_calls engine img ≤ 3 ∧
    extract_failure_text_calls engine img ≤ 4 ∧
    extract_failure_text_with_confidence_calls engineData img = 1 := by
  refine ⟨?_, ?_, ?_, ?_, ?_, ?_⟩
  · unfold extract_text_calls extract_text_run
    rcases engine img extract_text_config <;> rfl
  · unfold extract_number_calls extract_number_run
    rcases engine img extract_number_config <;> rfl
  · have b1 := tryConfigs_calls_le engine img (fun t => !t.isEmpty && pyIsDigit t) turn_configs
    have b2 := tryConfigs_calls_le engine img (fun t => !t.isEmpty) turn_configs
    rw [show turn_configs.length = 3 from rfl] at b1 b2
    unfold extract_turn_number_calls extract_turn_number_run
    rcases h1 : (tryConfigs engine img (fun t => !t.isEmpty && pyIsDigit t) turn_configs).1
      with e | o
    · simp only [h1]
      omega
    · rcases o with _ | t
      · rcases h2 : (tryConfigs engine img (fun t => !t.isEmpty) turn_configs).1 with e | o2
        · simp only [h1, h2]
          omega
        · rcases o2 with _ | t2 <;> simp only [h1, h2] <;> omega
      · simp only [h1]
        omega
  · have b := tryConfigs_calls_le engine img (fun t => !t.isEmpty) mood_configs
    rw [show mood_configs.length = 3 from rfl] at b
    unfold extract_mood_text_calls extract_mood_text_run
    rcases h1 : (tryConfigs engine img (fun t => !t.isEmpty) mood_configs).1 with e | o
    · simp only [h1]
      omega
    · rcases o with _ | t <;> simp only [h1] <;> omega
  · have b := tryConfigs_calls_le engine img (fun t => !t.isEmpty) failure_configs
    rw [show failure_configs.length = 4 from rfl] at b
    unfold extract_failure_text_calls extract_failure_text_run
    rcases h1 : (tryConfigs engine img (fun t => !t.isEmpty) failure_configs).1 with e | o
    · simp only [h1]
      omega
    · rcases o with _ | t <;> simp only [h1] <;> omega
  · unfold extract_failure_text_with_confidence_calls extract_failure_text_with_confidence_run
    rcases he : engineData img failure_conf_config with e | tokens
    · simp only [he]
    · simp only [he]
      split <;> rfl

/-- C7: `extract_failure_text` tries exactly four profiles sharing one
whitelist (letters, digits, `% ( ) .` and space), in the order uniform
block (psm 6), single line (psm 7), single word (psm 8), raw line
(psm 13), and returns the first non-empty stripped output, defaulting to
the empty string. -/
theorem extract_failure_text_policy {Image : Type}
    (e0 : Image → String → PyStr) (img : Image) :
    failure_configs =
      ["--oem 3 --psm 6 -c tessedit_char_whitelist=" ++ failure_whitelist,
       "--oem 3 --psm 7 -c tessedit_char_whitelist=" ++ failure_whitelist,
       "--oem 3 --psm 8 -c tessedit_char_whitelist=" ++ failure_whitelist,
       "--oem 3 --psm 13 -c tessedit_char_whitelist=" ++ failure_whitelist] ∧
    failure_configs.length = 4 ∧
    extract_failure_text (okEngine e0) img =
      ((failure_configs.map fun c => pyStrip (e0 img c)).find? fun t => !t.isEmpty).getD [] := by
  refine ⟨rfl, rfl, ?_⟩
  simp only [extract_failure_text, extract_failure_text_run, tryConfigs_fst_okEngine]
  rcases hf : (failure_configs.map fun c => pyStrip (e0 img c)).find? (fun t => !t.isEmpty)
    with _ | t <;> simp [hf]

theorem list_int_sum_le (l : List Int) (n : Int) (h : ∀ x ∈ l, x ≤ n) :
    l.sum ≤ n * l.length := by
  induction l with
  | nil => simp
  | cons a t ih =>
    simp only [List.sum_cons, List.length_cons]
    have ha := h a (List.mem_cons_self a t)
    have ht := ih fun x hx => h x (List.mem_cons_of_mem a hx)
    push_cast
    nlinarith

/-- C8: for every engine token list whose confidences all lie between 0
and 100, the confidence returned by
`extract_failure_text_with_confidence` lies in the closed interval
`[0, 1]`. -/
theorem confidence_in_unit_interval {Image ε : Type}
    (engineData : Image → String → Except ε (List (PyStr × Int))) (img : Image)
    (tokens : List (PyStr × Int))
    (h : engineData img failure_conf_config = Except.ok tokens)
    (hb : ∀ tc ∈ tokens, 0 ≤ tc.2 ∧ tc.2 ≤ 100) :
    0 ≤ (extract_failure_text_with_confidence engineData img).2 ∧
    (extract_failure_text_with_confidence engineData img).2 ≤ 1 := by
  rw [failure_conf_eq engineData img tokens h]
  by_cases hk : (tokens.filter fun tc => !(pyStrip tc.1).isEmpty) = []
  · rw [if_pos hk]
    constructor <;> norm_num
  · rw [if_neg hk]
    set kept := tokens.filter fun tc => !(pyStrip tc.1).isEmpty with hkept
    have hmem : ∀ x ∈ kept.map Prod.snd, 0 ≤ x ∧ x ≤ 100 := by
      intro x hx
      obtain ⟨tc, htc, rfl⟩ := List.mem_map.mp hx
      exact hb tc (List.mem_of_mem_filter htc)
    have hlen : 0 < kept.length := by
      rcases hke : kept with _ | ⟨a, t⟩
      · exact absurd hke hk
      · simp [hke]
    have hsum0 : (0 : Int) ≤ (kept.map Prod.snd).sum :=
      List.sum_nonneg fun x hx => (hmem x hx).1
    have hsum1 : (kept.map Prod.snd).sum ≤ 100 * (kept.map Prod.snd).length :=
      list_int_sum_le _ _ fun x hx => (hmem x hx).2
    rw [List.length_map] at hsum1
    have hlenq : (0 : ℚ) < (kept.length : ℚ) := by exact_mod_cast hlen
    constructor
    · dsimp only
      have h0 : (0 : ℚ) ≤ ((kept.map Prod.snd).sum : ℚ) := by exact_mod_cast hsum0
      exact div_nonneg (div_nonneg h0 (le_of_lt hlenq)) (by norm_num)
    · dsimp only
      rw [div_div, div_le_one (by positivity)]
      have : ((kept.map Prod.snd).sum : ℚ) ≤ ((100 * kept.length : Int) : ℚ) := by
        exact_mod_cast hsum1
      calc ((kept.map Prod.snd).sum : ℚ) ≤ ((100 * kept.length : Int) : ℚ) := this
        _ = (kept.length : ℚ) * 100 := by push_cast; ring

theorem confidence_in_unit_interval_witness :
    0 ≤ (extract_failure_text_with_confidence
        (fun (_ : Nat) (_ : String) =>
          (Except.ok [(('7' : Char) :: [], (50 : Int))] : Except Unit (List (PyStr × Int)))) 0).2 ∧
    (extract_failure_text_with_confidence
        (fun (_ : Nat) (_ : String) =>
          (Except.ok [(('7' : Char) :: [], (50 : Int))] : Except Unit (List (PyStr × Int)))) 0).2 ≤ 1 :=
  confidence_in_unit_interval
    (fun (_ : Nat) (_ : String) =>
      (Except.ok [(('7' : Char) :: [], (50 : Int))] : Except Unit (List (PyStr × Int)))) 0
    [(('7' : Char) :: [], (50 : Int))] rfl (by decide)

/-- C10: the averaging division of
`extract_failure_text_with_confidence` runs only in the branch where at
least one token with non-empty stripped text was kept, and there its
divisor, the number of kept tokens, is at least one; with no kept token
the function returns `("", 0.0)` without dividing. -/
theorem confidence_divisor_positive {Image ε : Type}
    (engineData : Image → String → Except ε (List (PyStr × Int))) (img : Image)
    (tokens : List (PyStr × Int))
    (h : engineData img failure_conf_config = Except.ok tokens) :
    ((tokens.filter fun tc => !(pyStrip tc.1).isEmpty) = [] →
      extract_failure_text_with_confidence engineData img = ([], 0)) ∧
    ((tokens.filter fun tc => !(pyStrip tc.1).isEmpty) ≠ [] →
      1 ≤ (tokens.filter fun tc => !(pyStrip tc.1).isEmpty).length ∧
      (extract_failure_text_with_confidence engineData img).2 =
        (((tokens.filter fun tc => !(pyStrip tc.1).isEmpty).map Prod.snd).sum : ℚ) /
          ((tokens.filter fun tc => !(pyStrip tc.1).isEmpty).length : ℚ) / 100) := by
  constructor
  · intro hk
    rw [failure_conf_eq engineData img tokens h, if_pos hk]
  · intro hk
    constructor
    · rcases hx : tokens.filter fun tc => !(pyStrip tc.1).isEmpty with _ | ⟨a, t⟩
      · exact absurd hx hk
      · rw [hx]
        simp
    · rw [failure_conf_eq engineData img tokens h, if_neg hk]

theorem confidence_divisor_positive_witness :
    1 ≤ (([((('9' : Char) :: []), (30 : Int)), ([], 5)].filter
        fun tc => !(pyStrip tc.1).isEmpty)).length ∧
    (extract_failure_text_with_confidence
        (fun (_ : Nat) (_ : String) =>
          (Except.ok [((('9' : Char) :: []), (30 : Int)), ([], 5)] :
            Except Unit (List (PyStr × Int)))) 0).2 =
      ((([((('9' : Char) :: []), (30 : Int)), ([], 5)].filter
          fun tc => !(pyStrip tc.1).isEmpty).map Prod.snd).sum : ℚ) /
        (([((('9' : Char) :: []), (30 : Int)), ([], 5)].filter
          fun tc => !(pyStrip tc.1).isEmpty).length : ℚ) / 100 :=
  (confidence_divisor_positive
    (fun (_ : Nat) (_ : String) =>
      (Except.ok [((('9' : Char) :: []), (30 : Int)), ([], 5)] :
        Except Unit (List (PyStr × Int)))) 0
    [((('9' : Char) :: []), (30 : Int)), ([], 5)] rfl).2 (by decide)

/-- C9: with the engine a deterministic function of image and
configuration, the two-pass `extract_turn_number` (whose second pass
re-invokes the engine on the same three configurations) returns the same
result as the single-pass variant that records each first-pass output
and falls back to the first recorded non-empty output. -/
theorem turn_number_two_pass_eq_single_pass {Image ε : Type}
    (engine : Image → String → Except ε PyStr) (img : Image) :
    extract_turn_number engine img = extract_turn_number_single_pass engine img := by
  rcases h1 : engine img turn_config_word with e1 | t1
  · simp [extract_turn_number, extract_turn_number_run, extract_turn_number_single_pass,
      tryConfigs, singlePassGo, turn_configs, h1]
  · by_cases a1 : (!(pyStrip t1).isEmpty && pyIsDigit (pyStrip t1)) = true
    · simp [extract_turn_number, extract_turn_number_run, extract_turn_number_single_pass,
        tryConfigs, singlePassGo, turn_configs, h1, a1]
    · rcases h2 : engine img turn_config_line with e2 | t2
      · simp [extract_turn_number, extract_turn_number_run, extract_turn_number_single_pass,
          tryConfigs, singlePassGo, turn_configs, h1, h2, a1]
      · by_cases a2 : (!(pyStrip t2).isEmpty && pyIsDigit (pyStrip t2)) = true
        · simp [extract_turn_number, extract_turn_number_run, extract_turn_number_single_pass,
            tryConfigs, singlePassGo, turn_configs, h1, h2, a1, a2]
        · rcases h3 : engine img turn_config_block with e3 | t3
          · simp [extract_turn_number, extract_turn_number_run, extract_turn_number_single_pass,
              tryConfigs, singlePassGo, turn_configs, h1, h2, h3, a1, a2]
          · by_cases a3 : (!(pyStrip t3).isEmpty && pyIsDigit (pyStrip t3)) = true
            · simp [extract_turn_number, extract_turn_number_run, extract_turn_number_single_pass,
                tryConfigs, singlePassGo, turn_configs, h1, h2, h3, a1, a2, a3]
            · by_cases b1 : pyStrip t1 = []
              · by_cases b2 : pyStrip t2 = []
                · by_cases b3 : pyStrip t3 = []
                  · simp [extract_turn_number, extract_turn_number_run,
                      extract_turn_number_single_pass, tryConfigs, singlePassGo, turn_configs,
                      h1, h2, h3, a1, a2, a3, b1, b2, b3, List.find?, List.isEmpty_iff]
                  · have c3 : (pyStrip t3).isEmpty = false := by
                      simpa [List.isEmpty_iff] using b3
                    have d3 : pyIsDigit (pyStrip t3) = false := by
                      cases hpd : pyIsDigit (pyStrip t3)
                      · rfl
                      · exact absurd (by simp [c3, hpd]) a3
                    simp [extract_turn_number, extract_turn_number_run,
                      extract_turn_number_single_pass, tryConfigs, singlePassGo, turn_configs,
                      h1, h2, h3, a1, a2, a3, b1, b2, b3, c3, d3, List.find?, List.isEmpty_iff]
                · have c2 : (pyStrip t2).isEmpty = false := by
                    simpa [List.isEmpty_iff] using b2
                  have d2 : pyIsDigit (pyStrip t2) = false := by
                    cases hpd : pyIsDigit (pyStrip t2)
                    · rfl
                    · exact absurd (by simp [c2, hpd]) a2
                  simp [extract_turn_number, extract_turn_number_run,
                    extract_turn_number_single_pass, tryConfigs, singlePassGo, turn_configs,
                    h1, h2, h3, a1, a2, a3, b1, b2, c2, d2, List.find?, List.isEmpty_iff]
              · have c1 : (pyStrip t1).isEmpty = false := by
                  simpa [List.isEmpty_iff] using b1
                have d1 : pyIsDigit (pyStrip t1) = false := by
                  cases hpd : pyIsDigit (pyStrip t1)
                  · rfl
                  · exact absurd (by simp [c1, hpd]) a1
                simp [extract_turn_number, extract_turn_number_run,
                  extract_turn_number_single_pass, tryConfigs, singlePassGo, turn_configs,
                  h1, h2, h3, a1, a2, a3, b1, c1, d1, List.find?, List.isEmpty_iff]

end OCR
